import Mathlib

/-!
Verification development for the PixelConvert client-side image converter
(src/types.ts and the main application component in src/unnamed/part_000).

The application is a single React component holding six state slots
(sourceImage, targetFormat, quality, isConverting, result, isDragging) plus a
file-input DOM element referenced through fileInputRef.  We embed that state as
an explicit record and each event handler (handleFile, reset, convertImage and
the convert-button click) as a pure transition function.  Platform primitives
that are not part of the repository (FileReader, Image decoding, the canvas
2d context and its toDataURL encoder) are passed in as explicit environment
records, so a theorem quantifying over the environment covers every platform
behaviour.  Alerts raised during a step are collected in a list; a step that
suspends forever (an await whose promise is never resolved) is reported
through a dedicated flag together with the state at the suspension point.
-/

/-- Embedding of the `ImageFormat` enum of src/types.ts. -/
inductive ImageFormat where
  | png
  | jpeg
  | webp
deriving DecidableEq, Repr

/-- String value of the enum member, as declared in src/types.ts
(PNG = "png", JPEG = "jpeg", WEBP = "webp").  This value is interpolated both
into the mime type `image/...` and into the download filename. -/
def ImageFormat.str : ImageFormat → String
  | .png => "png"
  | .jpeg => "jpeg"
  | .webp => "webp"

/-- The fields of a DOM `File` object that the application reads:
`file.name`, `file.size`, `file.type`. -/
structure File where
  name : String
  size : Nat
  type : String
deriving DecidableEq, Repr

/-- Embedding of the `ImageState` record of src/types.ts. -/
structure ImageState where
  file : File
  previewUrl : String
  name : String
  size : Nat
  type : String
  width : Nat
  height : Nat
deriving DecidableEq, Repr

/-- Embedding of the `ConversionResult` record of src/types.ts.  The size is
an integer because it is produced by `Math.round` on a real-valued
expression. -/
structure ConversionResult where
  url : String
  format : ImageFormat
  size : Int
deriving DecidableEq, Repr

/-- The React state of the `App` component: the six `useState` slots, plus the
value of the file-input control reached through `fileInputRef`. -/
structure AppState where
  sourceImage : Option ImageState
  targetFormat : ImageFormat
  quality : ℚ
  isConverting : Bool
  result : Option ConversionResult
  isDragging : Bool
  fileInputValue : String
deriving DecidableEq, Repr

/-- The initial state at process start: the `useState` initialisers of lines
6-11 of the component, with an empty file-input control. -/
def initialState : AppState :=
  { sourceImage := none
    targetFormat := ImageFormat.png
    quality := 9 / 10
    isConverting := false
    result := none
    isDragging := false
    fileInputValue := "" }

/-- The alert message shown when a non-image file is selected (line 17). -/
def invalidFileTypeMsg : String := "يرجى اختيار ملف صورة صالح (PNG, JPG, WEBP)"

/-- The alert message shown when a conversion fails (line 102). -/
def conversionErrorMsg : String := "حدث خطأ أثناء تحويل الصورة"

/-- Result of one event-handler step: the state afterwards and the alerts it
raised, in order. -/
structure StepResult where
  state : AppState
  alerts : List String
deriving DecidableEq, Repr

/-- JavaScript `String.prototype.startsWith`: the argument is a prefix of the
receiver as a sequence of characters. -/
def jsStartsWith (s p : String) : Bool := p.toList.isPrefixOf s.toList

/-- Environment for `handleFile`: what the platform FileReader and Image
decoder do.  `readResult` is the data URL delivered by the reader load event
(none while it has not fired - only the load event is observed).  `decode`
gives the intrinsic pixel dimensions delivered by the Image load event for a
given URL (none while it has not fired - only the load event is observed). -/
structure LoadEnv where
  readResult : Option String
  decode : String → Option (Nat × Nat)

/-- Embedding of `handleFile` (lines 15-39).  A file whose declared type does
not start with "image/" raises the invalid-file alert and returns without
touching the state.  Otherwise the FileReader result is decoded; once both
asynchronous load events have delivered, `sourceImage` is replaced wholesale
and `result` is cleared.  Until then nothing is updated. -/
def handleFile (env : LoadEnv) (file : File) (s : AppState) : StepResult :=
  if jsStartsWith file.type "image/" = false then
    { state := s, alerts := [invalidFileTypeMsg] }
  else
    match env.readResult with
    | none => { state := s, alerts := [] }
    | some u =>
      match env.decode u with
      | none => { state := s, alerts := [] }
      | some (w, h) =>
        { state :=
            { s with
              sourceImage := some
                { file := file
                  previewUrl := u
                  name := file.name
                  size := file.size
                  type := file.type
                  width := w
                  height := h }
              result := none }
          alerts := [] }

/-- Embedding of `reset` (lines 64-69): clear the source, the result and the
in-flight flag, and empty the file-input control.  The target format, the
quality slider and the drag flag are not touched. -/
def reset (s : AppState) : AppState :=
  { s with
    sourceImage := none
    result := none
    isConverting := false
    fileInputValue := "" }

/-- Environment for `convertImage`: what the platform image decoder and
canvas do during one conversion attempt.  `decodeOk` is whether the Image
load event fires for the preview URL (line 78 awaits only that event);
`ctxOk` is whether `getContext` returns a context; `paintOk` is whether
`drawImage` returns normally; the three encoder fields model `toDataURL`,
returning none when the encoder throws. -/
structure ConvertEnv where
  decodeOk : Bool
  ctxOk : Bool
  paintOk : Bool
  encodePng : String → Option String
  encodeJpeg : String → ℚ → Option String
  encodeWebp : String → ℚ → Option String

/-- Modelled from the spec: the canvas `toDataURL` encoder is a platform
primitive, not code of this repository.  Following section 4.1 step 4 of the
spec (quality applies to the lossy formats JPEG and WEBP and is ignored for
PNG), the request is dispatched to a png encoder that takes no quality
argument, or to a lossy encoder that receives the quality unchanged. -/
def ConvertEnv.toDataURL (env : ConvertEnv) (fmt : ImageFormat) (src : String)
    (q : ℚ) : Option String :=
  match fmt with
  | .png => env.encodePng src
  | .jpeg => env.encodeJpeg src q
  | .webp => env.encodeWebp src q

/-- JavaScript `Math.round`: round half away from minus infinity. -/
def jsRound (q : ℚ) : Int := ⌊q + 1 / 2⌋

/-- Result of one `convertImage` invocation.  `hung = true` means the
invocation suspended at an await whose promise is never resolved: `state` is
then the state at the suspension point and the handler never resumes. -/
structure ConvertStep where
  state : AppState
  alerts : List String
  hung : Bool
deriving Repr

/-- Embedding of `convertImage` (lines 71-106).  With no source it returns at
once (line 72).  Otherwise the in-flight flag is set and the preview URL is
re-decoded; line 78 awaits only the load event, so if it never fires the
handler suspends forever with the flag still set.  After a successful decode,
a context failure, a paint failure or an encoder failure is caught by the
catch block, which raises the generic conversion alert; the finally block
clears the in-flight flag in every completed run.  On success the result is
set to the data URL, the target format, and the estimated size
`Math.round((dataUrl.length - head) * 3 / 4)` where `head` is the length of
the string `data:image/<fmt>;base64,`. -/
def convertImage (env : ConvertEnv) (s : AppState) : ConvertStep :=
  match s.sourceImage with
  | none => { state := s, alerts := [], hung := false }
  | some src =>
    let s1 : AppState := { s with isConverting := true }
    if env.decodeOk = false then
      { state := s1, alerts := [], hung := true }
    else if env.ctxOk = false then
      { state := { s1 with isConverting := false }
        alerts := [conversionErrorMsg], hung := false }
    else if env.paintOk = false then
      { state := { s1 with isConverting := false }
        alerts := [conversionErrorMsg], hung := false }
    else
      match env.toDataURL s.targetFormat src.previewUrl s.quality with
      | none =>
        { state := { s1 with isConverting := false }
          alerts := [conversionErrorMsg], hung := false }
      | some dataUrl =>
        let head : Nat := ("data:" ++ ("image/" ++ s.targetFormat.str) ++ ";base64,").length
        let fileSize : Int := jsRound (((dataUrl.length : ℚ) - (head : ℚ)) * 3 / 4)
        { state :=
            { s1 with
              isConverting := false
              result := some { url := dataUrl, format := s.targetFormat, size := fileSize } }
          alerts := [], hung := false }

/-- The `disabled` attribute of the convert button (line 210). -/
def convertButtonDisabled (s : AppState) : Bool := s.isConverting

/-- One click on the convert button: a disabled control fires no handler, so
the click does nothing; otherwise `convertImage` runs (lines 208-211). -/
def clickConvert (env : ConvertEnv) (s : AppState) : ConvertStep :=
  if convertButtonDisabled s then
    { state := s, alerts := [], hung := false }
  else
    convertImage env s

/-- Visibility of the quality slider block (line 184): rendered exactly when
the target format is JPEG or WEBP. -/
def qualityControlVisible (s : AppState) : Bool :=
  s.targetFormat == ImageFormat.jpeg || s.targetFormat == ImageFormat.webp

/-- The download filename synthesised at line 319:
`converted-<name.split at dot, first component>.<result format string>`.
The JavaScript expression `name.split(".")[0]` is the longest prefix of the
name containing no dot. -/
def downloadFilename (name : String) (fmt : ImageFormat) : String :=
  "converted-" ++ String.mk (name.toList.takeWhile fun c => c != '.') ++ "." ++ fmt.str

/-- The `download` attribute of the result link: rendered only when a source
image and a result are both present (lines 306 and 317-320). -/
def downloadAttr (s : AppState) : Option String :=
  match s.sourceImage, s.result with
  | some src, some r => some (downloadFilename src.name r.format)
  | _, _ => none

/-- Stated from the words of claim C2, for comparison with the code: the
source file name with its final extension removed, that is everything before
the last dot, or the whole name when it has no dot. -/
def stripFinalExtension (name : String) : String :=
  if name.toList.contains '.' then
    String.mk ((name.toList.reverse.dropWhile fun c => c != '.').tail.reverse)
  else
    name

/-- A sample image file, used by the concrete witnesses. -/
def sampleFile : File :=
  { name := "photo.png", size := 2000, type := "image/png" }

/-- A sample encoded data URL (26 characters), used by the concrete
witnesses. -/
def samplePngUrl : String := "data:image/png;base64,AAAA"

/-- A sample loaded source image, used by the concrete witnesses. -/
def sampleImage : ImageState :=
  { file := sampleFile
    previewUrl := samplePngUrl
    name := "photo.png"
    size := 2000
    type := "image/png"
    width := 100
    height := 50 }

/-- A state with a loaded source image and no result yet. -/
def sampleLoaded : AppState :=
  { initialState with sourceImage := some sampleImage }

/-- A sample conversion result, used by the concrete witnesses. -/
def sampleResult : ConversionResult :=
  { url := samplePngUrl, format := ImageFormat.png, size := 3 }

/-- A state with a loaded source image and an existing conversion result. -/
def sampleConverted : AppState :=
  { sampleLoaded with result := some sampleResult }

/-- An environment in which every platform step of a conversion succeeds. -/
def sampleEnv : ConvertEnv :=
  { decodeOk := true
    ctxOk := true
    paintOk := true
    encodePng := fun _ => some samplePngUrl
    encodeJpeg := fun _ _ => some "data:image/jpeg;base64,AAAA"
    encodeWebp := fun _ _ => some "data:image/webp;base64,AAAA" }

/-- An environment in which re-decoding the preview URL never fires the load
event (for instance, the error event fires instead). -/
def hangEnv : ConvertEnv := { sampleEnv with decodeOk := false }

/-- A load environment in which both asynchronous load events deliver. -/
def sampleLoadEnv : LoadEnv :=
  { readResult := some samplePngUrl, decode := fun _ => some (100, 50) }

/-- A non-image file, used by the concrete witnesses. -/
def sampleTextFile : File :=
  { name := "notes.txt", size := 5, type := "text/plain" }

/-- Claim C1: for every conversion that succeeds, the estimated output byte
size recorded in the ConversionResult equals round((L - H) * 3 / 4), where L
is the total character length of the encoded data URL and H is the length of
the header `data:image/<fmt>;base64,`; H = 22 for the png header, and for
H = 22 and L = 1000 the estimate is 734. -/
theorem convertImage_size_formula (env : ConvertEnv) (s : AppState)
    (src : ImageState) (url : String)
    (hsrc : s.sourceImage = some src)
    (hdec : env.decodeOk = true) (hctx : env.ctxOk = true)
    (hpaint : env.paintOk = true)
    (henc : env.toDataURL s.targetFormat src.previewUrl s.quality = some url) :
    (convertImage env s).state.result =
      some { url := url
             format := s.targetFormat
             size := jsRound (((url.length : ℚ) -
               ((("data:" ++ ("image/" ++ s.targetFormat.str) ++ ";base64,").length : Nat) : ℚ)) * 3 / 4) }
    ∧ ("data:" ++ ("image/" ++ ImageFormat.png.str) ++ ";base64,").length = 22
    ∧ jsRound (((1000 : ℚ) - 22) * 3 / 4) = 734 := by
  refine ⟨?_, by decide, by norm_num [jsRound]⟩
  simp [convertImage, hsrc, hdec, hctx, hpaint, henc]

/-- Witness for claim C1 at a concrete environment and state. -/
theorem convertImage_size_formula_witness :
    sampleLoaded.sourceImage = some sampleImage
    ∧ sampleEnv.decodeOk = true ∧ sampleEnv.ctxOk = true ∧ sampleEnv.paintOk = true
    ∧ sampleEnv.toDataURL sampleLoaded.targetFormat sampleImage.previewUrl
        sampleLoaded.quality = some samplePngUrl
    ∧ ((convertImage sampleEnv sampleLoaded).state.result =
        some { url := samplePngUrl
               format := sampleLoaded.targetFormat
               size := jsRound (((samplePngUrl.length : ℚ) -
                 ((("data:" ++ ("image/" ++ sampleLoaded.targetFormat.str) ++ ";base64,").length : Nat) : ℚ)) * 3 / 4) }
       ∧ ("data:" ++ ("image/" ++ ImageFormat.png.str) ++ ";base64,").length = 22
       ∧ jsRound (((1000 : ℚ) - 22) * 3 / 4) = 734) :=
  ⟨rfl, rfl, rfl, rfl, rfl,
    convertImage_size_formula sampleEnv sampleLoaded sampleImage samplePngUrl
      rfl rfl rfl rfl rfl⟩

/-- Counterexample to claim C2: for a source name with more than one dot the
code keeps only the part before the first dot (JavaScript split at dot, first
component), not the name with its final extension removed.  For the name
a.b.png and target jpeg the code yields converted-a.jpeg while the claim
requires converted-a.b.jpeg. -/
theorem downloadFilename_counterexample :
    downloadFilename "a.b.png" ImageFormat.jpeg = "converted-a.jpeg"
    ∧ stripFinalExtension "a.b.png" = "a.b"
    ∧ downloadFilename "a.b.png" ImageFormat.jpeg ≠
        "converted-" ++ stripFinalExtension "a.b.png" ++ "." ++ ImageFormat.jpeg.str :=
  ⟨by decide, by decide, by decide⟩

/-- Claim C2 as amended: whenever a source image and a result are present, the
synthesized download filename is converted-<part of the source name before
its first dot>.<target format string>, and the target format string is one of
png, jpeg, webp. -/
theorem downloadFilename_spec (s : AppState) (src : ImageState)
    (r : ConversionResult)
    (hsrc : s.sourceImage = some src) (hres : s.result = some r) :
    downloadAttr s =
      some ("converted-" ++ String.mk (src.name.toList.takeWhile fun c => c != '.')
        ++ "." ++ r.format.str)
    ∧ (r.format.str = "png" ∨ r.format.str = "jpeg" ∨ r.format.str = "webp") := by
  refine ⟨by simp [downloadAttr, hsrc, hres, downloadFilename], ?_⟩
  cases r.format <;> simp [ImageFormat.str]

/-- Witness for amended claim C2 at a concrete state. -/
theorem downloadFilename_spec_witness :
    sampleConverted.sourceImage = some sampleImage
    ∧ sampleConverted.result = some sampleResult
    ∧ (downloadAttr sampleConverted =
        some ("converted-" ++ String.mk (sampleImage.name.toList.takeWhile fun c => c != '.')
          ++ "." ++ sampleResult.format.str)
      ∧ (sampleResult.format.str = "png" ∨ sampleResult.format.str = "jpeg"
          ∨ sampleResult.format.str = "webp")) :=
  ⟨rfl, rfl, downloadFilename_spec sampleConverted sampleImage sampleResult rfl rfl⟩

/-- Claim C3: a candidate file whose declared type does not start with image/
is rejected with the invalid-file alert and the state is left untouched: no
source image is created or altered, and the result and the in-flight flag are
unchanged. -/
theorem handleFile_rejects_non_image (env : LoadEnv) (file : File)
    (s : AppState) (h : jsStartsWith file.type "image/" = false) :
    handleFile env file s = { state := s, alerts := [invalidFileTypeMsg] }
    ∧ (handleFile env file s).state.sourceImage = s.sourceImage
    ∧ (handleFile env file s).state.result = s.result
    ∧ (handleFile env file s).state.isConverting = s.isConverting := by
  simp [handleFile, h]

/-- Witness for claim C3 on a concrete plain-text file. -/
theorem handleFile_rejects_non_image_witness :
    jsStartsWith sampleTextFile.type "image/" = false
    ∧ (handleFile sampleLoadEnv sampleTextFile initialState =
        { state := initialState, alerts := [invalidFileTypeMsg] }
      ∧ (handleFile sampleLoadEnv sampleTextFile initialState).state.sourceImage =
          initialState.sourceImage
      ∧ (handleFile sampleLoadEnv sampleTextFile initialState).state.result =
          initialState.result
      ∧ (handleFile sampleLoadEnv sampleTextFile initialState).state.isConverting =
          initialState.isConverting) :=
  ⟨by decide,
    handleFile_rejects_non_image sampleLoadEnv sampleTextFile initialState (by decide)⟩

/-- Claim C4: conversion to png ignores the quality entirely - for every
environment and state, converting with target png at quality 0.1 and at
quality 0.9 produces the same result (in particular the same encoded URL,
byte for byte) and the same alerts; and the quality control is visible
exactly when the target format is jpeg or webp. -/
theorem png_ignores_quality (env : ConvertEnv) (s : AppState) :
    ((convertImage env { s with targetFormat := ImageFormat.png, quality := 1 / 10 }).state.result
        = (convertImage env { s with targetFormat := ImageFormat.png, quality := 9 / 10 }).state.result
      ∧ (convertImage env { s with targetFormat := ImageFormat.png, quality := 1 / 10 }).alerts
        = (convertImage env { s with targetFormat := ImageFormat.png, quality := 9 / 10 }).alerts)
    ∧ (qualityControlVisible s = true ↔
        (s.targetFormat = ImageFormat.jpeg ∨ s.targetFormat = ImageFormat.webp)) := by
  constructor
  · cases hs : s.sourceImage with
    | none => simp [convertImage, hs]
    | some src =>
      cases hd : env.decodeOk with
      | false => simp [convertImage, hs, hd]
      | true =>
        cases hc : env.ctxOk with
        | false => simp [convertImage, hs, hd, hc]
        | true =>
          cases hp : env.paintOk with
          | false => simp [convertImage, hs, hd, hc, hp]
          | true =>
            cases he : env.encodePng src.previewUrl with
            | none => simp [convertImage, hs, hd, hc, hp, ConvertEnv.toDataURL, he]
            | some u => simp [convertImage, hs, hd, hc, hp, ConvertEnv.toDataURL, he]
  · cases h : s.targetFormat <;> simp [qualityControlVisible, h]

/-- Claim C5 as amended: reset always yields a state with no source image, no
result, a cleared in-flight flag and an emptied file-input control, while
preserving the chosen target format, quality and drag flag - so the resulting
state equals the process-start state exactly when those preserved slots
already hold their initial values. -/
theorem reset_spec (s : AppState) :
    (reset s).sourceImage = none ∧ (reset s).result = none
    ∧ (reset s).isConverting = false ∧ (reset s).fileInputValue = ""
    ∧ (reset s).targetFormat = s.targetFormat ∧ (reset s).quality = s.quality
    ∧ (reset s).isDragging = s.isDragging
    ∧ (reset s = initialState ↔
        (s.targetFormat = ImageFormat.png ∧ s.quality = 9 / 10 ∧ s.isDragging = false)) := by
  obtain ⟨a, tf, q, ic, r, dr, fv⟩ := s
  refine ⟨rfl, rfl, rfl, rfl, rfl, rfl, rfl, ?_⟩
  simp only [reset, initialState, AppState.mk.injEq, true_and, and_true]

/-- A state in which the user has moved every adjustable slot away from its
initial value. -/
def resetCexState : AppState :=
  { sourceImage := some sampleImage
    targetFormat := ImageFormat.jpeg
    quality := 1 / 2
    isConverting := true
    result := some sampleResult
    isDragging := false
    fileInputValue := "photo.png" }

/-- Counterexample to claim C5: after reset the source, result, in-flight flag
and file input are indeed cleared, but the state is not the initial
process-start state, because reset preserves the chosen target format (and
quality). -/
theorem reset_not_initial_counterexample :
    ((reset resetCexState).sourceImage = none
      ∧ (reset resetCexState).result = none
      ∧ (reset resetCexState).isConverting = false
      ∧ (reset resetCexState).fileInputValue = "")
    ∧ reset resetCexState ≠ initialState :=
  ⟨⟨rfl, rfl, rfl, rfl⟩, by decide⟩

/-- Claim C6 evaluated at its failing input: line 78 of `convertImage` awaits
only the load event of the re-decode, so in an environment where that event
never fires (for example the error event fires instead, signalling a decode
failure) the handler suspends forever: no alert is raised, the in-flight flag
remains set and no result is recorded - while the claim requires a generic
failure notice and a cleared in-flight flag for a failure at the decode
stage. -/
theorem convertImage_decode_hang :
    convertImage hangEnv sampleConverted =
      { state := { sampleConverted with isConverting := true }
        alerts := []
        hung := true }
    ∧ (convertImage hangEnv sampleConverted).state.isConverting = true
    ∧ (convertImage hangEnv sampleConverted).alerts = []
    ∧ (convertImage hangEnv sampleConverted).state.sourceImage = some sampleImage
    ∧ (convertImage hangEnv sampleConverted).state.result = some sampleResult :=
  ⟨rfl, rfl, rfl, rfl, rfl⟩

/-- Claim C7: the convert control is disabled exactly while a conversion is in
flight, and a click on the convert control in any state whose in-flight flag
is set leaves the state untouched and raises nothing - the second of two
rapid convert triggers is a no-op. -/
theorem clickConvert_noop_while_converting (env : ConvertEnv) (s : AppState) :
    clickConvert env { s with isConverting := true } =
      { state := { s with isConverting := true }, alerts := [], hung := false }
    ∧ convertButtonDisabled s = s.isConverting :=
  ⟨rfl, rfl⟩

/-- Claim C8: with a valid image file, once the reader and decode load events
have delivered, the source image is replaced wholesale and any existing
result is cleared; while either asynchronous event is still outstanding, the
state is not updated at all. -/
theorem handleFile_replaces_and_clears (env : LoadEnv) (file : File)
    (s : AppState) (r0 : ConversionResult) (_hres : s.result = some r0)
    (hty : jsStartsWith file.type "image/" = true) :
    (∀ u w h, env.readResult = some u → env.decode u = some (w, h) →
        handleFile env file s =
          { state :=
              { s with
                sourceImage := some
                  { file := file, previewUrl := u, name := file.name,
                    size := file.size, type := file.type, width := w, height := h }
                result := none }
            alerts := [] })
    ∧ (∀ u, env.readResult = some u → env.decode u = none →
        handleFile env file s = { state := s, alerts := [] })
    ∧ (env.readResult = none → handleFile env file s = { state := s, alerts := [] }) := by
  refine ⟨?_, ?_, ?_⟩
  · intro u w h hu hd
    simp [handleFile, hty, hu, hd]
  · intro u hu hd
    simp [handleFile, hty, hu, hd]
  · intro hu
    simp [handleFile, hty, hu]

/-- Witness for claim C8 at a concrete environment and state holding a
result. -/
theorem handleFile_replaces_and_clears_witness :
    sampleConverted.result = some sampleResult
    ∧ jsStartsWith sampleFile.type "image/" = true
    ∧ sampleLoadEnv.readResult = some samplePngUrl
    ∧ sampleLoadEnv.decode samplePngUrl = some (100, 50)
    ∧ handleFile sampleLoadEnv sampleFile sampleConverted =
        { state :=
            { sampleConverted with
              sourceImage := some
                { file := sampleFile, previewUrl := samplePngUrl,
                  name := sampleFile.name, size := sampleFile.size,
                  type := sampleFile.type, width := 100, height := 50 }
              result := none }
          alerts := [] } :=
  ⟨rfl, by decide, rfl, rfl,
    (handleFile_replaces_and_clears sampleLoadEnv sampleFile sampleConverted
        sampleResult rfl (by decide)).1 samplePngUrl 100 50 rfl rfl⟩

/-- Claim C9: a convert invocation never mutates the source image, nor the
target format, quality, drag flag or file-input control; its only state
effects are on the result slot and the in-flight flag. -/
theorem convertImage_preserves_source (env : ConvertEnv) (s : AppState) :
    (convertImage env s).state.sourceImage = s.sourceImage
    ∧ (convertImage env s).state.targetFormat = s.targetFormat
    ∧ (convertImage env s).state.quality = s.quality
    ∧ (convertImage env s).state.isDragging = s.isDragging
    ∧ (convertImage env s).state.fileInputValue = s.fileInputValue := by
  cases hs : s.sourceImage with
  | none => simp [convertImage, hs]
  | some src =>
    cases hd : env.decodeOk with
    | false => simp [convertImage, hs, hd]
    | true =>
      cases hc : env.ctxOk with
      | false => simp [convertImage, hs, hd, hc]
      | true =>
        cases hp : env.paintOk with
        | false => simp [convertImage, hs, hd, hc, hp]
        | true =>
          cases he : env.toDataURL s.targetFormat src.previewUrl s.quality with
          | none => simp [convertImage, hs, hd, hc, hp, he]
          | some u => simp [convertImage, hs, hd, hc, hp, he]

/-- Claim C10: invoking convert with no loaded source image is a complete
no-op - the state is returned unchanged (in particular the in-flight flag is
never set and the result slot is untouched), no alert is raised and the
handler does not suspend. -/
theorem convertImage_no_source_noop (env : ConvertEnv) (s : AppState)
    (h : s.sourceImage = none) :
    convertImage env s = { state := s, alerts := [], hung := false } := by
  simp [convertImage, h]

/-- Witness for claim C10 at the initial state. -/
theorem convertImage_no_source_noop_witness :
    initialState.sourceImage = none
    ∧ convertImage sampleEnv initialState =
        { state := initialState, alerts := [], hung := false } :=
  ⟨rfl, convertImage_no_source_noop sampleEnv initialState rfl⟩
